import Mathlib

/-!
# Load balancer resource of the cloudscale provider

A shallow embedding of `cloudscale/resource_cloudscale_load_balancer.go`.

* The remote API client (`client.LoadBalancers`) is an arbitrary deterministic
  transition system over a remote state `σ`; every call a handler makes is
  appended to a call log together with its outcome.
* `schema.ResourceData` is modelled by its identifier and three attribute layers:
  the prior state, the planned configuration and the values written with `Set`.
* Go maps (`map[string]interface{}`) are association lists in insertion order.
-/

namespace Cloudscale

/-! ## Attribute values -/

/-- Values stored inside one element of a list attribute (`int` or `string`). -/
inductive Scalar where
  | str (s : String)
  | int (n : Int)
  deriving DecidableEq, Repr

/-- The Go type `cloudscale.TagMap` (`map[string]string`). -/
abbrev TagMap := List (String × String)

/-- One element of a list attribute: `map[string]interface{}` with scalar values. -/
abbrev ElemMap := List (String × Scalar)

/-- Values of top-level attributes (`interface{}` restricted to the shapes the schema uses). -/
inductive Value where
  | str (s : String)
  | int (n : Int)
  | list (l : List (List (String × Scalar)))
  | tags (m : List (String × String))
  deriving DecidableEq, Repr

/-- The Go type `ResourceDataRaw` (`map[string]interface{}`), in insertion order. -/
abbrev ResourceDataRaw := List (String × Value)

/-- Map lookup `m[k]` on an association list (the latest write wins). -/
def lookup {α : Type} (k : String) : List (String × α) → Option α
  | [] => none
  | (k1, v) :: rest =>
    match lookup k rest with
    | some w => some w
    | none => if k1 = k then some v else none

/-- Type assertion `.(string)`; the schema types the attribute as `TypeString`, and an
unset attribute reads as the zero value. -/
def asString : Option Value → String
  | some (Value.str s) => s
  | _ => ""

/-- Type assertion `.(string)` on an element field. -/
def scalarString : Option Scalar → String
  | some (Scalar.str s) => s
  | _ => ""

/-- Reading a `TypeMap` attribute as a tag map; unset reads as the empty map. -/
def asTags : Option Value → TagMap
  | some (Value.tags m) => m
  | _ => []

/-- Reading a `TypeList` attribute as its list of elements; unset reads as the empty list. -/
def asList : Option Value → List ElemMap
  | some (Value.list l) => l
  | _ => []

/-! ## SDK request and response types (the fields the handlers touch) -/

/-- The Go type `cloudscale.SubnetRequest`. -/
structure SubnetRequest where
  UUID : String := ""
  deriving DecidableEq, Repr

/-- The Go type `cloudscale.VIPAddressRequest`. -/
structure VIPAddressRequest where
  Address : String := ""
  Subnet : SubnetRequest := {}
  deriving DecidableEq, Repr

/-- The Go type `cloudscale.LoadBalancerRequest`; the defaults are the Go zero values
(`Zone` is the embedded `ZonalResourceRequest.Zone`, `Tags` the embedded
`TaggedResourceRequest.Tags` pointer, `VIPAddresses` a pointer to a slice). -/
structure LoadBalancerRequest where
  Zone : String := ""
  Tags : Option TagMap := none
  Name : String := ""
  Flavor : String := ""
  VIPAddresses : Option (List VIPAddressRequest) := none
  deriving DecidableEq, Repr

/-- The Go type `cloudscale.SubnetStub`. -/
structure SubnetStub where
  HREF : String
  UUID : String
  CIDR : String
  deriving DecidableEq, Repr

/-- The Go type `cloudscale.VIPAddress`. -/
structure VIPAddress where
  Version : Int
  Address : String
  Subnet : SubnetStub
  deriving DecidableEq, Repr

/-- The Go type `cloudscale.LoadBalancerFlavor`. -/
structure LoadBalancerFlavor where
  Slug : String
  deriving DecidableEq, Repr

/-- The Go type `cloudscale.LoadBalancer` (`ZoneSlug` is `Zone.Slug` of the embedded
`ZonalResource`, `Tags` the embedded `TaggedResource.Tags`). -/
structure LoadBalancer where
  ZoneSlug : String
  Tags : TagMap
  HREF : String
  UUID : String
  Name : String
  Flavor : LoadBalancerFlavor
  Status : String
  VIPAddresses : List VIPAddress
  deriving DecidableEq, Repr

/-- A non-nil Go `error` returned by the SDK: `statusCode` is `some c` exactly when the
error is a `*cloudscale.ErrorResponse` with HTTP status `c`; `message` is `err.Error()`. -/
structure RemoteError where
  statusCode : Option Nat
  message : String
  deriving DecidableEq, Repr

/-! ## The remote client and the call log -/

/-- A remote call issued through `client.LoadBalancers`. -/
inductive Call where
  | create (opts : LoadBalancerRequest)
  | get (id : String)
  | update (id : String) (opts : LoadBalancerRequest)
  | delete (id : String)
  deriving DecidableEq, Repr

/-- A logged remote call with its outcome (`none` is a nil error). -/
structure Event where
  call : Call
  err : Option RemoteError
  deriving DecidableEq, Repr

/-- The service `client.LoadBalancers` as a deterministic transition system on `σ`. -/
structure Client (σ : Type) where
  Create : LoadBalancerRequest → σ → Except RemoteError LoadBalancer × σ
  Get : String → σ → Except RemoteError LoadBalancer × σ
  Update : String → LoadBalancerRequest → σ → Option RemoteError × σ
  Delete : String → σ → Option RemoteError × σ

/-- The world a handler runs in: the remote state and the log of calls made so far. -/
structure World (σ : Type) where
  remote : σ
  log : List Event

/-- The error of a two-valued Go result. -/
def errOf {α : Type} : Except RemoteError α → Option RemoteError
  | Except.error e => some e
  | Except.ok _ => none

/-- The call `client.LoadBalancers.Create(ctx, opts)`. -/
def callCreate {σ : Type} (c : Client σ) (opts : LoadBalancerRequest) (w : World σ) :
    Except RemoteError LoadBalancer × World σ :=
  let r := c.Create opts w.remote
  (r.1, ⟨r.2, w.log ++ [⟨Call.create opts, errOf r.1⟩]⟩)

/-- The call `client.LoadBalancers.Get(ctx, id)`. -/
def callGet {σ : Type} (c : Client σ) (id : String) (w : World σ) :
    Except RemoteError LoadBalancer × World σ :=
  let r := c.Get id w.remote
  (r.1, ⟨r.2, w.log ++ [⟨Call.get id, errOf r.1⟩]⟩)

/-- The call `client.LoadBalancers.Update(ctx, id, opts)`. -/
def callUpdate {σ : Type} (c : Client σ) (id : String) (opts : LoadBalancerRequest)
    (w : World σ) : Option RemoteError × World σ :=
  let r := c.Update id opts w.remote
  (r.1, ⟨r.2, w.log ++ [⟨Call.update id opts, r.1⟩]⟩)

/-- The call `client.LoadBalancers.Delete(ctx, id)`. -/
def callDelete {σ : Type} (c : Client σ) (id : String) (w : World σ) :
    Option RemoteError × World σ :=
  let r := c.Delete id w.remote
  (r.1, ⟨r.2, w.log ++ [⟨Call.delete id, r.1⟩]⟩)

/-! ## `schema.ResourceData` -/

/-- The framework object `*schema.ResourceData`: the identifier, the prior state, the
planned configuration (state merged with the diff) and the values written by `Set`. -/
structure ResourceData where
  id : String
  state : String → Option Value
  config : String → Option Value
  written : String → Option Value

/-- The read `d.Get(key)` of a top-level attribute: written values shadow planned ones. -/
def ResourceData.Get (d : ResourceData) (key : String) : Option Value :=
  match d.written key with
  | some v => some v
  | none => d.config key

/-- The read `d.Get(key + ".#").(int)`: the number of elements of a list attribute. -/
def ResourceData.GetCount (d : ResourceData) (key : String) : Nat :=
  (asList (d.Get key)).length

/-- The read `d.Get(fmt.Sprintf("%s.%d", key, i) + "." + field)`: a field of the `i`-th
element of a list attribute. -/
def ResourceData.GetElem (d : ResourceData) (key : String) (i : Nat) (field : String) :
    Option Scalar :=
  match (asList (d.Get key)).get? i with
  | some e => lookup field e
  | none => none

/-- The test `d.HasChange(key)`: prior state and planned value differ. -/
def ResourceData.HasChange (d : ResourceData) (key : String) : Bool :=
  decide (d.state key ≠ d.config key)

/-- The write `d.Set(key, value)`. -/
def ResourceData.Set (d : ResourceData) (key : String) (value : Value) : ResourceData :=
  { d with written := fun k => if k = key then some value else d.written k }

/-- The write `d.SetId(id)`. -/
def ResourceData.SetId (d : ResourceData) (id : String) : ResourceData :=
  { d with id := id }

/-! ## Helpers of the repository that live outside the modelled file -/

/-- Modelled from the spec: `CopyTags` (tag-set copying, defined in another file of the
repository) returns a pointer to a copy of the configured tag set. -/
def CopyTags (d : ResourceData) : Option TagMap :=
  some (asTags (d.Get "tags"))

/-- Modelled from the spec: `fillResourceData` (defined in another file of the repository)
copies every gathered field into local state with `d.Set`; the entry `id` is not a schema
attribute, the identifier being managed through `SetId`. Go ranges over the map in an
unspecified order; the keys being distinct, the order does not affect the result. -/
def fillResourceData (d : ResourceData) (m : ResourceDataRaw) : ResourceData :=
  m.foldl (fun acc kv => if kv.1 = "id" then acc else acc.Set kv.1 kv.2) d

/-- Modelled from the spec: `CheckDeleted` (deleted-resource detection, defined in another
file of the repository). A not-found condition (an API error response with HTTP status
404) yields no error; any other failure is surfaced, wrapped with the operation-specific
message. Clearing local state is left to the calling framework. -/
def CheckDeleted (_d : ResourceData) (err : RemoteError) (msg : String) : Option String :=
  if err.statusCode = some 404 then none
  else some (msg ++ ": " ++ err.message)

/-! ## The handlers -/

/-- What a handler leaves behind: the returned Go `error` (`none` is nil), the resource
data and the world. -/
structure Outcome (σ : Type) where
  err : Option String
  d : ResourceData
  w : World σ

/-- Source: `createVipAddressOptions`. -/
def createVipAddressOptions (d : ResourceData) : List VIPAddressRequest :=
  let vipAddressCount := d.GetCount "vip_addresses"
  (List.range vipAddressCount).map fun i =>
    { Address := scalarString (d.GetElem "vip_addresses" i "address"),
      Subnet := { UUID := scalarString (d.GetElem "vip_addresses" i "subnet_uuid") } }

/-- Source: the request assembled by `resourceCloudscaleLoadBalancerCreate` before the
remote call (lines 89 to 103). -/
def createOpts (d : ResourceData) : LoadBalancerRequest :=
  let opts : LoadBalancerRequest :=
    { Zone := asString (d.Get "zone_slug"),
      Name := asString (d.Get "name"),
      Flavor := asString (d.Get "flavor_slug") }
  let vipAddressCount := d.GetCount "vip_addresses"
  let opts :=
    if vipAddressCount > 0 then
      { opts with VIPAddresses := some (createVipAddressOptions d) }
    else opts
  { opts with Tags := CopyTags d }

/-- Source: the inner loop body of `gatherLoadBalancerData` building `vipMap`. -/
def vipMapOf (vip : VIPAddress) : ElemMap :=
  [("version", Scalar.int vip.Version),
   ("address", Scalar.str vip.Address),
   ("subnet_uuid", Scalar.str vip.Subnet.UUID),
   ("subnet_cidr", Scalar.str vip.Subnet.CIDR),
   ("subnet_href", Scalar.str vip.Subnet.HREF)]

/-- Source: `gatherLoadBalancerData`. -/
def gatherLoadBalancerData (loadbalancer : LoadBalancer) : ResourceDataRaw :=
  let m : ResourceDataRaw :=
    [("id", Value.str loadbalancer.UUID),
     ("href", Value.str loadbalancer.HREF),
     ("name", Value.str loadbalancer.Name),
     ("flavor_slug", Value.str loadbalancer.Flavor.Slug),
     ("status", Value.str loadbalancer.Status)]
  if loadbalancer.VIPAddresses.length > 0 then
    m ++ [("vip_addresses", Value.list (loadbalancer.VIPAddresses.map vipMapOf))]
  else m

/-- Source: `fillLoadBalancerSchema`. -/
def fillLoadBalancerSchema (d : ResourceData) (loadbalancer : LoadBalancer) : ResourceData :=
  fillResourceData d (gatherLoadBalancerData loadbalancer)

/-- Source: `resourceCloudscaleLoadBalancerCreate`. -/
def resourceCloudscaleLoadBalancerCreate {σ : Type} (c : Client σ) (d : ResourceData)
    (w : World σ) : Outcome σ :=
  let opts := createOpts d
  match callCreate c opts w with
  | (Except.error err, w1) => ⟨some ("Error creating LoadBalancer: " ++ err.message), d, w1⟩
  | (Except.ok loadbalancer, w1) =>
    let d1 := d.SetId loadbalancer.UUID
    ⟨none, fillLoadBalancerSchema d1 loadbalancer, w1⟩

/-- Source: `resourceCloudscaleLoadBalancerRead`. -/
def resourceCloudscaleLoadBalancerRead {σ : Type} (c : Client σ) (d : ResourceData)
    (w : World σ) : Outcome σ :=
  match callGet c d.id w with
  | (Except.error err, w1) => ⟨CheckDeleted d err "Error retrieving load balancer", d, w1⟩
  | (Except.ok loadbalancer, w1) => ⟨none, fillLoadBalancerSchema d loadbalancer, w1⟩

/-- Source: the request built in the loop body of `resourceCloudscaleLoadBalancerUpdate`
for one attribute (lines 186 to 191); `attr` is the loop variable. -/
def updateOpts (d : ResourceData) (attr : String) : LoadBalancerRequest :=
  let opts : LoadBalancerRequest := {}
  if attr = "name" then
    { opts with Name := asString (d.Get attr) }
  else if attr = "tags" then
    { opts with Tags := CopyTags d }
  else opts

/-- Source: the `for` loop of `resourceCloudscaleLoadBalancerUpdate` over the remaining
attributes; `some msg` is the early `return fmt.Errorf(...)`. -/
def updateLoop {σ : Type} (c : Client σ) (id : String) (d : ResourceData) :
    List String → World σ → Option String × World σ
  | [], w => (none, w)
  | attr :: rest, w =>
    if d.HasChange attr then
      match callUpdate c id (updateOpts d attr) w with
      | (some err, w1) =>
        (some ("Error updating the Load Balancer (" ++ id ++ "): " ++ err.message), w1)
      | (none, w1) => updateLoop c id d rest w1
    else updateLoop c id d rest w

/-- Source: `resourceCloudscaleLoadBalancerUpdate`. -/
def resourceCloudscaleLoadBalancerUpdate {σ : Type} (c : Client σ) (d : ResourceData)
    (w : World σ) : Outcome σ :=
  let id := d.id
  match updateLoop c id d ["name", "flavor_slug"] w with
  | (some msg, w1) => ⟨some msg, d, w1⟩
  | (none, w1) => resourceCloudscaleLoadBalancerRead c d w1

/-- Source: `resourceCloudscaleLoadBalancerDelete`. -/
def resourceCloudscaleLoadBalancerDelete {σ : Type} (c : Client σ) (d : ResourceData)
    (w : World σ) : Outcome σ :=
  let id := d.id
  match callDelete c id w with
  | (some err, w1) => ⟨CheckDeleted d err "Error deleting load balancer", d, w1⟩
  | (none, w1) => ⟨none, d, w1⟩

/-! ## Vocabulary of the statements -/

/-- The identifier and request of an `Update` call; `none` for any other call. -/
def Call.asUpdate : Call → Option (String × LoadBalancerRequest)
  | Call.update id opts => some (id, opts)
  | _ => none

/-- The `Update` calls among logged events, in the order they were issued. -/
def updateCalls (evs : List Event) : List (String × LoadBalancerRequest) :=
  evs.filterMap fun ev => ev.call.asUpdate

/-- The events a handler appended to a log that had `n` entries when it started. -/
def newEvents {σ : Type} (n : Nat) (r : Outcome σ) : List Event :=
  r.w.log.drop n

/-- The remote state after the given calls are applied in order, outcomes discarded. -/
def replay {σ : Type} (c : Client σ) : List Call → σ → σ
  | [], s => s
  | Call.create opts :: rest, s => replay c rest (c.Create opts s).2
  | Call.get id :: rest, s => replay c rest (c.Get id s).2
  | Call.update id opts :: rest, s => replay c rest (c.Update id opts s).2
  | Call.delete id :: rest, s => replay c rest (c.Delete id s).2

/-- One `Update` call per changed attribute among `attrs`, in the order of `attrs`. -/
def plannedFor (d : ResourceData) (id : String) (attrs : List String) : List Call :=
  (attrs.filter d.HasChange).map fun a => Call.update id (updateOpts d a)

/-- The `Update` calls an apply asks for: one per changed attribute, `name` first. -/
def plannedUpdates (d : ResourceData) : List Call :=
  plannedFor d d.id ["name", "flavor_slug"]

/-! ## Fixtures used to instantiate the statements -/

/-- The not-found error of the remote API (HTTP status 404). -/
def notFound : RemoteError := ⟨some 404, "Not found."⟩

/-- An API error response that is not a not-found condition (HTTP status 500). -/
def serverError : RemoteError := ⟨some 500, "Internal server error."⟩

/-- An in-memory remote holding at most one load balancer. An update changes every
field the request sets (a request field left at its zero value is not sent). -/
def fakeClient : Client (Option LoadBalancer) where
  Create opts _ :=
    let lb : LoadBalancer :=
      { ZoneSlug := opts.Zone, Tags := opts.Tags.getD [], HREF := "https://api/lb-1",
        UUID := "lb-1", Name := opts.Name, Flavor := ⟨opts.Flavor⟩, Status := "running",
        VIPAddresses := (opts.VIPAddresses.getD []).map fun r =>
          ⟨4, r.Address, ⟨"https://api/subnet", r.Subnet.UUID, "10.0.0.0/24"⟩⟩ }
    (Except.ok lb, some lb)
  Get id s :=
    match s with
    | some lb => if lb.UUID = id then (Except.ok lb, s) else (Except.error notFound, s)
    | none => (Except.error notFound, s)
  Update id opts s :=
    match s with
    | some lb =>
      if lb.UUID = id then
        (none, some { lb with
          Name := if opts.Name = "" then lb.Name else opts.Name,
          Flavor := if opts.Flavor = "" then lb.Flavor else ⟨opts.Flavor⟩,
          Tags := opts.Tags.getD lb.Tags })
      else (some notFound, s)
    | none => (some notFound, s)
  Delete id s :=
    match s with
    | some lb => if lb.UUID = id then (none, none) else (some notFound, s)
    | none => (some notFound, s)

/-- A remote on which every call fails with the given error. -/
def failingClient (e : RemoteError) : Client Unit where
  Create _ s := (Except.error e, s)
  Get _ s := (Except.error e, s)
  Update _ _ s := (some e, s)
  Delete _ s := (some e, s)

/-- A remote that counts the updates it accepted and rejects every update after the
first; reads return the given record. -/
def secondUpdateFails (lb : LoadBalancer) : Client Nat where
  Create _ s := (Except.ok lb, s)
  Get _ s := (Except.ok lb, s)
  Update _ _ s := if s = 0 then (none, s + 1) else (some serverError, s)
  Delete _ s := (none, s)

/-- Attribute layer built from an association list. -/
def attrsOf (l : List (String × Value)) : String → Option Value :=
  fun k => lookup k l

/-- The empty world over a remote state. -/
def freshWorld {σ : Type} (s : σ) : World σ := ⟨s, []⟩

/-- A planned configuration of a new resource with two VIP address entries. -/
def newConfig : ResourceData where
  id := ""
  state := fun _ => none
  config := attrsOf
    [("name", Value.str "web"), ("flavor_slug", Value.str "lb-standard"),
     ("zone_slug", Value.str "rma1"),
     ("vip_addresses", Value.list
        [[("address", Scalar.str "10.0.0.10"), ("subnet_uuid", Scalar.str "subnet-a")],
         [("address", Scalar.str "10.0.0.11"), ("subnet_uuid", Scalar.str "subnet-b")]]),
     ("tags", Value.tags [("my-foo", "foo"), ("my-bar", "bar")])]
  written := fun _ => none

/-- The remote record of the stored resource used in the examples. -/
def storedLb : LoadBalancer where
  ZoneSlug := "rma1"
  Tags := [("my-foo", "foo"), ("my-bar", "bar")]
  HREF := "https://api/lb-1"
  UUID := "lb-1"
  Name := "web"
  Flavor := ⟨"lb-standard"⟩
  Status := "running"
  VIPAddresses := [⟨4, "10.0.0.10", ⟨"https://api/subnet", "subnet-a", "10.0.0.0/24"⟩⟩]

/-- A remote record that differs from the stored state in zone, tags and VIP addresses
(it has no VIP address). -/
def driftedLb : LoadBalancer where
  ZoneSlug := "lpg1"
  Tags := []
  HREF := "https://api/lb-1"
  UUID := "lb-1"
  Name := "web"
  Flavor := ⟨"lb-standard"⟩
  Status := "running"
  VIPAddresses := []

/-- The record the in-memory remote creates for `newConfig`. -/
def createdLb : LoadBalancer where
  ZoneSlug := "rma1"
  Tags := [("my-foo", "foo"), ("my-bar", "bar")]
  HREF := "https://api/lb-1"
  UUID := "lb-1"
  Name := "web"
  Flavor := ⟨"lb-standard"⟩
  Status := "running"
  VIPAddresses :=
    [⟨4, "10.0.0.10", ⟨"https://api/subnet", "subnet-a", "10.0.0.0/24"⟩⟩,
     ⟨4, "10.0.0.11", ⟨"https://api/subnet", "subnet-b", "10.0.0.0/24"⟩⟩]

/-- The prior state of the stored resource as the framework holds it. -/
def storedAttrs : List (String × Value) :=
  [("name", Value.str "web"), ("flavor_slug", Value.str "lb-standard"),
   ("zone_slug", Value.str "rma1"), ("href", Value.str "https://api/lb-1"),
   ("status", Value.str "running"),
   ("vip_addresses", Value.list
      [[("version", Scalar.int 4), ("address", Scalar.str "10.0.0.10"),
        ("subnet_uuid", Scalar.str "subnet-a"), ("subnet_cidr", Scalar.str "10.0.0.0/24"),
        ("subnet_href", Scalar.str "https://api/subnet")]]),
   ("tags", Value.tags [("my-foo", "foo"), ("my-bar", "bar")])]

/-- An apply that changes nothing. -/
def planNoChange : ResourceData where
  id := "lb-1"
  state := attrsOf storedAttrs
  config := attrsOf storedAttrs
  written := fun _ => none

/-- An apply that changes only `flavor_slug` (to `lb-large`). -/
def planFlavorChange : ResourceData where
  id := "lb-1"
  state := attrsOf storedAttrs
  config := attrsOf (storedAttrs ++ [("flavor_slug", Value.str "lb-large")])
  written := fun _ => none

/-- An apply that changes only `tags` (cleared to the empty set). -/
def planTagsCleared : ResourceData where
  id := "lb-1"
  state := attrsOf storedAttrs
  config := attrsOf (storedAttrs ++ [("tags", Value.tags [])])
  written := fun _ => none

/-- An apply that changes both `name` and `flavor_slug`. -/
def planBothChange : ResourceData where
  id := "lb-1"
  state := attrsOf storedAttrs
  config := attrsOf
    (storedAttrs ++ [("name", Value.str "web2"), ("flavor_slug", Value.str "lb-large")])
  written := fun _ => none

/-! ## Basic facts about the model -/

theorem lookup_append_singleton {α : Type} (k k1 : String) (v : α) (l : List (String × α)) :
    lookup k (l ++ [(k1, v)]) = if k1 = k then some v else lookup k l := by
  induction l with
  | nil => simp [lookup]
  | cons hd tl ih =>
    obtain ⟨k2, v2⟩ := hd
    show (match lookup k (tl ++ [(k1, v)]) with
      | some w => some w
      | none => if k2 = k then some v2 else none) = _
    rw [ih]
    by_cases h : k1 = k
    · simp [h]
    · simp [h, lookup]

theorem fillResourceData_id (d : ResourceData) (m : ResourceDataRaw) :
    (fillResourceData d m).id = d.id := by
  unfold fillResourceData
  induction m generalizing d with
  | nil => rfl
  | cons hd tl ih =>
    simp only [List.foldl_cons]
    rw [ih]
    split <;> rfl

theorem fillResourceData_state (d : ResourceData) (m : ResourceDataRaw) :
    (fillResourceData d m).state = d.state := by
  unfold fillResourceData
  induction m generalizing d with
  | nil => rfl
  | cons hd tl ih =>
    simp only [List.foldl_cons]
    rw [ih]
    split <;> rfl

theorem fillResourceData_config (d : ResourceData) (m : ResourceDataRaw) :
    (fillResourceData d m).config = d.config := by
  unfold fillResourceData
  induction m generalizing d with
  | nil => rfl
  | cons hd tl ih =>
    simp only [List.foldl_cons]
    rw [ih]
    split <;> rfl

/-- After `fillResourceData`, an attribute reads as the gathered value when the map has
the key (other than `id`), and as before otherwise. -/
theorem fillResourceData_written (d : ResourceData) (m : ResourceDataRaw) (k : String) :
    (fillResourceData d m).written k =
      if k = "id" then d.written k
      else match lookup k m with
        | some v => some v
        | none => d.written k := by
  unfold fillResourceData
  induction m generalizing d with
  | nil => simp [lookup]
  | cons hd tl ih =>
    obtain ⟨k1, v1⟩ := hd
    simp only [List.foldl_cons]
    rw [ih]
    by_cases hk : k = "id"
    · simp only [hk, if_true]
      by_cases h1 : k1 = "id"
      · simp [h1]
      · have h2 : ¬ "id" = k1 := fun h => h1 h.symm
        simp [h1, h2, ResourceData.Set]
    · simp only [hk, if_false, lookup]
      cases hl : lookup k tl with
      | some w => rfl
      | none =>
        by_cases h1 : k1 = "id"
        · have h2 : ¬ "id" = k := fun h => hk h.symm
          simp [h1, h2]
        · by_cases h2 : k1 = k
          · subst h2
            simp [h1, ResourceData.Set]
          · have h3 : ¬ k = k1 := fun h => h2 h.symm
            simp [h1, h2, h3, ResourceData.Set]

theorem ResourceData.eq_of_fields (a b : ResourceData) (h1 : a.id = b.id)
    (h2 : a.state = b.state) (h3 : a.config = b.config) (h4 : a.written = b.written) :
    a = b := by
  cases a
  cases b
  simp_all

/-- Filling the state twice from the same gathered map is the same as filling it once. -/
theorem fillResourceData_idem (d : ResourceData) (m : ResourceDataRaw) :
    fillResourceData (fillResourceData d m) m = fillResourceData d m := by
  apply ResourceData.eq_of_fields
  · rw [fillResourceData_id]
  · rw [fillResourceData_state]
  · rw [fillResourceData_config]
  · funext k
    rw [fillResourceData_written (fillResourceData d m) m k, fillResourceData_written d m k]
    by_cases hk : k = "id"
    · simp [hk]
    · simp only [hk, if_false]
      cases lookup k m <;> rfl

theorem fillLoadBalancerSchema_id (d : ResourceData) (lb : LoadBalancer) :
    (fillLoadBalancerSchema d lb).id = d.id :=
  fillResourceData_id d _

/-- Reading an attribute after `fillLoadBalancerSchema`. -/
theorem fillLoadBalancerSchema_Get (d : ResourceData) (lb : LoadBalancer) (k : String)
    (hk : k ≠ "id") :
    (fillLoadBalancerSchema d lb).Get k =
      match lookup k (gatherLoadBalancerData lb) with
      | some v => some v
      | none => d.Get k := by
  unfold ResourceData.Get fillLoadBalancerSchema
  rw [fillResourceData_written, fillResourceData_config, if_neg hk]
  cases lookup k (gatherLoadBalancerData lb) <;> rfl

theorem create_unfold_error {σ : Type} (c : Client σ) (d : ResourceData) (w : World σ)
    (e : RemoteError) (s1 : σ) (h : c.Create (createOpts d) w.remote = (Except.error e, s1)) :
    resourceCloudscaleLoadBalancerCreate c d w =
      ⟨some ("Error creating LoadBalancer: " ++ e.message), d,
        ⟨s1, w.log ++ [⟨Call.create (createOpts d), some e⟩]⟩⟩ := by
  simp [resourceCloudscaleLoadBalancerCreate, callCreate, h, errOf]

theorem create_unfold_ok {σ : Type} (c : Client σ) (d : ResourceData) (w : World σ)
    (lb : LoadBalancer) (s1 : σ) (h : c.Create (createOpts d) w.remote = (Except.ok lb, s1)) :
    resourceCloudscaleLoadBalancerCreate c d w =
      ⟨none, fillLoadBalancerSchema (d.SetId lb.UUID) lb,
        ⟨s1, w.log ++ [⟨Call.create (createOpts d), none⟩]⟩⟩ := by
  simp [resourceCloudscaleLoadBalancerCreate, callCreate, h, errOf]

theorem read_unfold_error {σ : Type} (c : Client σ) (d : ResourceData) (w : World σ)
    (e : RemoteError) (s1 : σ) (h : c.Get d.id w.remote = (Except.error e, s1)) :
    resourceCloudscaleLoadBalancerRead c d w =
      ⟨CheckDeleted d e "Error retrieving load balancer", d,
        ⟨s1, w.log ++ [⟨Call.get d.id, some e⟩]⟩⟩ := by
  simp [resourceCloudscaleLoadBalancerRead, callGet, h, errOf]

theorem read_unfold_ok {σ : Type} (c : Client σ) (d : ResourceData) (w : World σ)
    (lb : LoadBalancer) (s1 : σ) (h : c.Get d.id w.remote = (Except.ok lb, s1)) :
    resourceCloudscaleLoadBalancerRead c d w =
      ⟨none, fillLoadBalancerSchema d lb, ⟨s1, w.log ++ [⟨Call.get d.id, none⟩]⟩⟩ := by
  simp [resourceCloudscaleLoadBalancerRead, callGet, h, errOf]

/-! ## Create -/

/-- C10: if the remote Create call fails with error `e`, the create handler makes exactly
one Create call (the only event appended to the log), returns the error message
`Error creating LoadBalancer: ` followed by the message of `e` verbatim, and leaves the
resource data unchanged (no identifier set, no field populated). -/
theorem create_failure_surfaces_error {σ : Type} (c : Client σ) (d : ResourceData)
    (w : World σ) (e : RemoteError) (s1 : σ)
    (h : c.Create (createOpts d) w.remote = (Except.error e, s1)) :
    (resourceCloudscaleLoadBalancerCreate c d w).err
        = some ("Error creating LoadBalancer: " ++ e.message) ∧
      (resourceCloudscaleLoadBalancerCreate c d w).w.log
        = w.log ++ [⟨Call.create (createOpts d), some e⟩] ∧
      (resourceCloudscaleLoadBalancerCreate c d w).w.remote = s1 ∧
      (resourceCloudscaleLoadBalancerCreate c d w).d = d := by
  rw [create_unfold_error c d w e s1 h]
  exact ⟨rfl, rfl, rfl, rfl⟩

theorem create_failure_surfaces_error_witness :
    (failingClient serverError).Create (createOpts newConfig) (freshWorld ()).remote
        = (Except.error serverError, ()) ∧
      ((resourceCloudscaleLoadBalancerCreate (failingClient serverError) newConfig
          (freshWorld ())).err
        = some ("Error creating LoadBalancer: " ++ serverError.message) ∧
      (resourceCloudscaleLoadBalancerCreate (failingClient serverError) newConfig
          (freshWorld ())).w.log
        = (freshWorld ()).log ++ [⟨Call.create (createOpts newConfig), some serverError⟩] ∧
      (resourceCloudscaleLoadBalancerCreate (failingClient serverError) newConfig
          (freshWorld ())).w.remote = () ∧
      (resourceCloudscaleLoadBalancerCreate (failingClient serverError) newConfig
          (freshWorld ())).d = newConfig) :=
  ⟨rfl, create_failure_surfaces_error (failingClient serverError) newConfig (freshWorld ())
    serverError () rfl⟩

/-- C9: if the remote Create returns the record `lb` and a following remote Get for the
same identifier returns the same `lb`, then Create followed by Read succeeds and leaves
the same resource data as Create alone. -/
theorem create_then_read_no_drift {σ : Type} (c : Client σ) (d : ResourceData)
    (w : World σ) (lb : LoadBalancer) (s1 s2 : σ)
    (hc : c.Create (createOpts d) w.remote = (Except.ok lb, s1))
    (hg : c.Get lb.UUID s1 = (Except.ok lb, s2)) :
    (resourceCloudscaleLoadBalancerCreate c d w).err = none ∧
      (resourceCloudscaleLoadBalancerRead c (resourceCloudscaleLoadBalancerCreate c d w).d
        (resourceCloudscaleLoadBalancerCreate c d w).w).err = none ∧
      (resourceCloudscaleLoadBalancerRead c (resourceCloudscaleLoadBalancerCreate c d w).d
        (resourceCloudscaleLoadBalancerCreate c d w).w).d
        = (resourceCloudscaleLoadBalancerCreate c d w).d := by
  rw [create_unfold_ok c d w lb s1 hc]
  have hid : (fillLoadBalancerSchema (d.SetId lb.UUID) lb).id = lb.UUID := by
    rw [fillLoadBalancerSchema_id]
    rfl
  have hg2 : c.Get (fillLoadBalancerSchema (d.SetId lb.UUID) lb).id
      (⟨s1, w.log ++ [⟨Call.create (createOpts d), none⟩]⟩ : World σ).remote
      = (Except.ok lb, s2) := by
    rw [hid]
    exact hg
  refine ⟨rfl, ?_, ?_⟩
  · show (resourceCloudscaleLoadBalancerRead c _ _).err = none
    rw [read_unfold_ok c _ _ lb s2 hg2]
  · show (resourceCloudscaleLoadBalancerRead c _ _).d = _
    rw [read_unfold_ok c _ _ lb s2 hg2]
    exact fillResourceData_idem _ _

theorem create_then_read_no_drift_witness :
    fakeClient.Create (createOpts newConfig) (freshWorld none).remote
        = (Except.ok (createdLb), some createdLb) ∧
      fakeClient.Get createdLb.UUID (some createdLb) = (Except.ok createdLb, some createdLb) ∧
      ((resourceCloudscaleLoadBalancerCreate fakeClient newConfig (freshWorld none)).err = none ∧
      (resourceCloudscaleLoadBalancerRead fakeClient
        (resourceCloudscaleLoadBalancerCreate fakeClient newConfig (freshWorld none)).d
        (resourceCloudscaleLoadBalancerCreate fakeClient newConfig (freshWorld none)).w).err
        = none ∧
      (resourceCloudscaleLoadBalancerRead fakeClient
        (resourceCloudscaleLoadBalancerCreate fakeClient newConfig (freshWorld none)).d
        (resourceCloudscaleLoadBalancerCreate fakeClient newConfig (freshWorld none)).w).d
        = (resourceCloudscaleLoadBalancerCreate fakeClient newConfig (freshWorld none)).d) :=
  ⟨rfl, rfl, create_then_read_no_drift fakeClient newConfig (freshWorld none) createdLb
    (some createdLb) (some createdLb) rfl rfl⟩

/-- The sub-requests built by `createVipAddressOptions` are the configured entries
mapped one by one. -/
theorem createVipAddressOptions_eq_map (d : ResourceData) :
    createVipAddressOptions d =
      (asList (d.Get "vip_addresses")).map fun e =>
        { Address := scalarString (lookup "address" e),
          Subnet := { UUID := scalarString (lookup "subnet_uuid" e) } } := by
  unfold createVipAddressOptions ResourceData.GetCount ResourceData.GetElem
  apply List.ext_getElem
  · simp
  · intro i h1 h2
    simp only [List.length_map, List.length_range] at h1
    simp [List.getElem?_eq_getElem h1]

/-- C5: the create handler issues one Create call whose request has Zone, Name and Flavor
equal to the configured zone_slug, name and flavor_slug; with no configured vip_addresses
entry the request has no VIP address list, and with N > 0 entries it carries exactly N
sub-requests, the i-th holding the address and subnet UUID of the i-th entry. -/
theorem create_request_of_config {σ : Type} (c : Client σ) (d : ResourceData)
    (w : World σ) :
    (∃ outcome, (resourceCloudscaleLoadBalancerCreate c d w).w.log
        = w.log ++ [⟨Call.create (createOpts d), outcome⟩]) ∧
      (createOpts d).Zone = asString (d.Get "zone_slug") ∧
      (createOpts d).Name = asString (d.Get "name") ∧
      (createOpts d).Flavor = asString (d.Get "flavor_slug") ∧
      (d.GetCount "vip_addresses" = 0 → (createOpts d).VIPAddresses = none) ∧
      (0 < d.GetCount "vip_addresses" →
        ∃ reqs, (createOpts d).VIPAddresses = some reqs ∧
          reqs.length = d.GetCount "vip_addresses" ∧
          ∀ i e, (asList (d.Get "vip_addresses")).get? i = some e →
            reqs.get? i = some
              { Address := scalarString (lookup "address" e),
                Subnet := { UUID := scalarString (lookup "subnet_uuid" e) } }) := by
  refine ⟨?_, ?_, ?_, ?_, ?_, ?_⟩
  · cases h : c.Create (createOpts d) w.remote with
    | mk res s1 =>
      cases res with
      | error e => exact ⟨some e, by rw [create_unfold_error c d w e s1 h]⟩
      | ok lb => exact ⟨none, by rw [create_unfold_ok c d w lb s1 h]⟩
  · unfold createOpts
    simp only []
    split <;> rfl
  · unfold createOpts
    simp only []
    split <;> rfl
  · unfold createOpts
    simp only []
    split <;> rfl
  · intro h0
    unfold createOpts
    simp [h0]
  · intro hpos
    refine ⟨createVipAddressOptions d, ?_, ?_, ?_⟩
    · unfold createOpts
      simp [hpos]
    · rw [createVipAddressOptions_eq_map]
      simp [ResourceData.GetCount]
    · intro i e he
      rw [createVipAddressOptions_eq_map]
      simp only [List.get?_eq_getElem?] at he ⊢
      simp [List.getElem?_map, he]

theorem create_request_of_config_witness :
    0 < newConfig.GetCount "vip_addresses" ∧
      (createOpts newConfig).Zone = "rma1" ∧
      (createOpts newConfig).Name = "web" ∧
      (createOpts newConfig).Flavor = "lb-standard" ∧
      ∃ reqs, (createOpts newConfig).VIPAddresses = some reqs ∧
        reqs.length = newConfig.GetCount "vip_addresses" ∧
        ∀ i e, (asList (newConfig.Get "vip_addresses")).get? i = some e →
          reqs.get? i = some
            { Address := scalarString (lookup "address" e),
              Subnet := { UUID := scalarString (lookup "subnet_uuid" e) } } :=
  ⟨by decide,
    (create_request_of_config fakeClient newConfig (freshWorld none)).2.1.trans rfl,
    (create_request_of_config fakeClient newConfig (freshWorld none)).2.2.1.trans rfl,
    (create_request_of_config fakeClient newConfig (freshWorld none)).2.2.2.1.trans rfl,
    (create_request_of_config fakeClient newConfig (freshWorld none)).2.2.2.2.2 (by decide)⟩

/-- C6: for a remote record with at least one VIP address, `gatherLoadBalancerData`
yields id, href, name, flavor_slug and status equal to the UUID, HREF, Name, Flavor.Slug
and Status of the record and a vip_addresses list with one sub-record per remote VIP
address, in order, holding its version, address, subnet UUID, subnet CIDR and subnet
href; and a successful create sets the resource identifier to the returned UUID. -/
theorem gather_copies_remote_record (lb : LoadBalancer) :
    (1 ≤ lb.VIPAddresses.length →
      lookup "id" (gatherLoadBalancerData lb) = some (Value.str lb.UUID) ∧
      lookup "href" (gatherLoadBalancerData lb) = some (Value.str lb.HREF) ∧
      lookup "name" (gatherLoadBalancerData lb) = some (Value.str lb.Name) ∧
      lookup "flavor_slug" (gatherLoadBalancerData lb) = some (Value.str lb.Flavor.Slug) ∧
      lookup "status" (gatherLoadBalancerData lb) = some (Value.str lb.Status) ∧
      ∃ subs, lookup "vip_addresses" (gatherLoadBalancerData lb) = some (Value.list subs) ∧
        subs.length = lb.VIPAddresses.length ∧
        ∀ i vip, lb.VIPAddresses.get? i = some vip →
          ∃ sub, subs.get? i = some sub ∧
            lookup "version" sub = some (Scalar.int vip.Version) ∧
            lookup "address" sub = some (Scalar.str vip.Address) ∧
            lookup "subnet_uuid" sub = some (Scalar.str vip.Subnet.UUID) ∧
            lookup "subnet_cidr" sub = some (Scalar.str vip.Subnet.CIDR) ∧
            lookup "subnet_href" sub = some (Scalar.str vip.Subnet.HREF)) ∧
      (∀ {σ : Type} (c : Client σ) (d : ResourceData) (w : World σ) (s1 : σ),
        c.Create (createOpts d) w.remote = (Except.ok lb, s1) →
          (resourceCloudscaleLoadBalancerCreate c d w).err = none ∧
          (resourceCloudscaleLoadBalancerCreate c d w).d.id = lb.UUID) := by
  constructor
  · intro hN
    have hpos : lb.VIPAddresses.length > 0 := hN
    unfold gatherLoadBalancerData
    simp only [hpos, if_true]
    refine ⟨?_, ?_, ?_, ?_, ?_, ?_⟩
    · simp [lookup]
    · simp [lookup]
    · simp [lookup]
    · simp [lookup]
    · simp [lookup]
    · refine ⟨lb.VIPAddresses.map vipMapOf, ?_, ?_, ?_⟩
      · simp [lookup]
      · simp
      · intro i vip hv
        refine ⟨vipMapOf vip, ?_, ?_, ?_, ?_, ?_, ?_⟩
        · simp only [List.get?_eq_getElem?] at hv ⊢
          simp [List.getElem?_map, hv]
        · simp [vipMapOf, lookup]
        · simp [vipMapOf, lookup]
        · simp [vipMapOf, lookup]
        · simp [vipMapOf, lookup]
        · simp [vipMapOf, lookup]
  · intro σ c d w s1 h
    rw [create_unfold_ok c d w lb s1 h]
    exact ⟨rfl, by
      show (fillLoadBalancerSchema (d.SetId lb.UUID) lb).id = lb.UUID
      rw [fillLoadBalancerSchema_id]
      rfl⟩

theorem gather_copies_remote_record_witness :
    1 ≤ createdLb.VIPAddresses.length ∧
      lookup "id" (gatherLoadBalancerData createdLb) = some (Value.str "lb-1") ∧
      fakeClient.Create (createOpts newConfig) (freshWorld none).remote
        = (Except.ok createdLb, some createdLb) ∧
      (resourceCloudscaleLoadBalancerCreate fakeClient newConfig (freshWorld none)).d.id
        = "lb-1" :=
  ⟨by decide,
    ((gather_copies_remote_record createdLb).1 (by decide)).1.trans rfl,
    rfl,
    ((gather_copies_remote_record createdLb).2 fakeClient newConfig (freshWorld none)
      (some createdLb) rfl).2.trans rfl⟩

/-! ## Not-found handling -/

/-- C8: when the remote call of the delete or read handler fails with a not-found
condition (an API error response with HTTP status 404) the handler returns no error; when
it fails with any other error the handler returns an error; when the remote Delete
succeeds the handler returns no error. -/
theorem not_found_is_not_an_error {σ : Type} (c : Client σ) (d : ResourceData)
    (w : World σ) :
    (∀ e, (c.Delete d.id w.remote).1 = some e → e.statusCode = some 404 →
        (resourceCloudscaleLoadBalancerDelete c d w).err = none) ∧
      (∀ e, (c.Delete d.id w.remote).1 = some e → e.statusCode ≠ some 404 →
        (resourceCloudscaleLoadBalancerDelete c d w).err.isSome = true) ∧
      ((c.Delete d.id w.remote).1 = none →
        (resourceCloudscaleLoadBalancerDelete c d w).err = none) ∧
      (∀ e, (c.Get d.id w.remote).1 = Except.error e → e.statusCode = some 404 →
        (resourceCloudscaleLoadBalancerRead c d w).err = none) ∧
      (∀ e, (c.Get d.id w.remote).1 = Except.error e → e.statusCode ≠ some 404 →
        (resourceCloudscaleLoadBalancerRead c d w).err.isSome = true) := by
  refine ⟨?_, ?_, ?_, ?_, ?_⟩
  · intro e he h404
    simp [resourceCloudscaleLoadBalancerDelete, callDelete, he, CheckDeleted, h404]
  · intro e he h404
    simp [resourceCloudscaleLoadBalancerDelete, callDelete, he, CheckDeleted, h404]
  · intro he
    simp [resourceCloudscaleLoadBalancerDelete, callDelete, he]
  · intro e he h404
    simp [resourceCloudscaleLoadBalancerRead, callGet, he, CheckDeleted, h404]
  · intro e he h404
    simp [resourceCloudscaleLoadBalancerRead, callGet, he, CheckDeleted, h404]

theorem not_found_is_not_an_error_witness :
    (resourceCloudscaleLoadBalancerDelete fakeClient planNoChange (freshWorld none)).err
        = none ∧
      (resourceCloudscaleLoadBalancerDelete (failingClient serverError) planNoChange
        (freshWorld ())).err.isSome = true ∧
      (resourceCloudscaleLoadBalancerDelete fakeClient planNoChange
        (freshWorld (some storedLb))).err = none ∧
      (resourceCloudscaleLoadBalancerRead fakeClient planNoChange (freshWorld none)).err
        = none ∧
      (resourceCloudscaleLoadBalancerRead (failingClient serverError) planNoChange
        (freshWorld ())).err.isSome = true :=
  ⟨(not_found_is_not_an_error fakeClient planNoChange (freshWorld none)).1 notFound rfl rfl,
    (not_found_is_not_an_error (failingClient serverError) planNoChange
      (freshWorld ())).2.1 serverError rfl (by decide),
    (not_found_is_not_an_error fakeClient planNoChange
      (freshWorld (some storedLb))).2.2.1 rfl,
    (not_found_is_not_an_error fakeClient planNoChange (freshWorld none)).2.2.2.1
      notFound rfl rfl,
    (not_found_is_not_an_error (failingClient serverError) planNoChange
      (freshWorld ())).2.2.2.2 serverError rfl (by decide)⟩

/-! ## Update -/

theorem plannedFor_cons_changed (d : ResourceData) (id a : String) (rest : List String)
    (h : d.HasChange a = true) :
    plannedFor d id (a :: rest) = Call.update id (updateOpts d a) :: plannedFor d id rest := by
  simp [plannedFor, List.filter_cons, h]

theorem plannedFor_cons_unchanged (d : ResourceData) (id a : String) (rest : List String)
    (h : ¬ d.HasChange a = true) :
    plannedFor d id (a :: rest) = plannedFor d id rest := by
  simp [plannedFor, List.filter_cons, h]

/-- The loop of the update handler either runs every planned call successfully, or stops
right after the first failing call with the formatted error. -/
theorem updateLoop_spec {σ : Type} (c : Client σ) (id : String) (d : ResourceData)
    (attrs : List String) (w : World σ) :
    (∃ evs, updateLoop c id d attrs w
          = (none, ⟨replay c (plannedFor d id attrs) w.remote, w.log ++ evs⟩) ∧
        (∀ ev ∈ evs, ev.err = none) ∧
        evs.map Event.call = plannedFor d id attrs) ∨
      (∃ pre e call, updateLoop c id d attrs w
          = (some ("Error updating the Load Balancer (" ++ id ++ "): " ++ e.message),
              ⟨replay c (pre.map Event.call ++ [call]) w.remote,
                w.log ++ pre ++ [⟨call, some e⟩]⟩) ∧
        (∀ ev ∈ pre, ev.err = none) ∧
        (pre.map Event.call ++ [call]) <+: plannedFor d id attrs) := by
  induction attrs generalizing w with
  | nil =>
    left
    exact ⟨[], by simp [updateLoop, plannedFor, replay], by simp, by simp [plannedFor]⟩
  | cons a rest ih =>
    by_cases hch : d.HasChange a = true
    · rw [plannedFor_cons_changed d id a rest hch]
      cases hu : c.Update id (updateOpts d a) w.remote with
      | mk o s1 =>
        cases o with
        | some e =>
          right
          refine ⟨[], e, Call.update id (updateOpts d a), ?_, by simp, ?_⟩
          · simp [updateLoop, hch, callUpdate, hu, replay]
          · simp
        | none =>
          have hstep : updateLoop c id d (a :: rest) w
              = updateLoop c id d rest
                  ⟨s1, w.log ++ [⟨Call.update id (updateOpts d a), none⟩]⟩ := by
            simp [updateLoop, hch, callUpdate, hu]
          rw [hstep]
          rcases ih ⟨s1, w.log ++ [⟨Call.update id (updateOpts d a), none⟩]⟩ with
            ⟨evs, h1, h2, h3⟩ | ⟨pre, e, call, h1, h2, h3⟩
          · left
            refine ⟨⟨Call.update id (updateOpts d a), none⟩ :: evs, ?_, ?_, ?_⟩
            · rw [h1]
              simp [replay, hu]
            · intro ev hev
              rcases List.mem_cons.mp hev with h | h
              · rw [h]
              · exact h2 ev h
            · simp [h3]
          · right
            refine ⟨⟨Call.update id (updateOpts d a), none⟩ :: pre, e, call, ?_, ?_, ?_⟩
            · rw [h1]
              simp [replay, hu]
            · intro ev hev
              rcases List.mem_cons.mp hev with h | h
              · rw [h]
              · exact h2 ev h
            · simpa using h3
    · rw [plannedFor_cons_unchanged d id a rest hch]
      have hstep : updateLoop c id d (a :: rest) w = updateLoop c id d rest w := by
        simp [updateLoop, hch]
      rw [hstep]
      exact ih w

theorem read_log {σ : Type} (c : Client σ) (d : ResourceData) (w : World σ) :
    (resourceCloudscaleLoadBalancerRead c d w).w.log
      = w.log ++ [⟨Call.get d.id, errOf (c.Get d.id w.remote).1⟩] := by
  cases h : c.Get d.id w.remote with
  | mk res s1 =>
    cases res with
    | error e => rw [read_unfold_error c d w e s1 h]; rfl
    | ok lb => rw [read_unfold_ok c d w lb s1 h]; rfl

theorem update_unfold_error {σ : Type} (c : Client σ) (d : ResourceData) (w w1 : World σ)
    (msg : String) (h : updateLoop c d.id d ["name", "flavor_slug"] w = (some msg, w1)) :
    resourceCloudscaleLoadBalancerUpdate c d w = ⟨some msg, d, w1⟩ := by
  simp [resourceCloudscaleLoadBalancerUpdate, h]

theorem update_unfold_ok {σ : Type} (c : Client σ) (d : ResourceData) (w w1 : World σ)
    (h : updateLoop c d.id d ["name", "flavor_slug"] w = (none, w1)) :
    resourceCloudscaleLoadBalancerUpdate c d w = resourceCloudscaleLoadBalancerRead c d w1 := by
  simp [resourceCloudscaleLoadBalancerUpdate, h]

theorem asUpdate_of_mem_plannedFor (d : ResourceData) (id : String) (attrs : List String)
    (call : Call) (h : call ∈ plannedFor d id attrs) :
    ∃ opts, call = Call.update id opts := by
  unfold plannedFor at h
  rcases List.mem_map.mp h with ⟨a, _, ha⟩
  exact ⟨updateOpts d a, ha.symm⟩

theorem filterMap_asUpdate_plannedFor (d : ResourceData) (id : String) (attrs : List String) :
    (plannedFor d id attrs).filterMap Call.asUpdate
      = (attrs.filter d.HasChange).map fun a => (id, updateOpts d a) := by
  unfold plannedFor
  induction attrs.filter d.HasChange with
  | nil => rfl
  | cons a rest ih => simp [Call.asUpdate, ih]

theorem updateCalls_eq (evs : List Event) :
    updateCalls evs = (evs.map Event.call).filterMap Call.asUpdate := by
  unfold updateCalls
  induction evs with
  | nil => rfl
  | cons ev rest ih => simp [List.filterMap_cons, ih]

/-- C7: the update handler either stops right after the first failing Update call (the
log gains only the successful calls before it and the failing call, all of them planned
Update calls in order, so no further Update and no Read is issued; the remote state is
the one those calls produced, nothing is undone; the returned error is
`Error updating the Load Balancer (<id>): <remote message>` and the resource data is
untouched), or every planned Update call succeeded and the handler returns exactly what
the read handler returns when run after them. -/
theorem update_aborts_on_first_failure {σ : Type} (c : Client σ) (d : ResourceData)
    (w : World σ) :
    (∃ pre e call,
        (resourceCloudscaleLoadBalancerUpdate c d w).w.log
          = w.log ++ pre ++ [⟨call, some e⟩] ∧
        (∀ ev ∈ pre, ev.err = none) ∧
        (pre.map Event.call ++ [call]) <+: plannedUpdates d ∧
        (resourceCloudscaleLoadBalancerUpdate c d w).w.remote
          = replay c (pre.map Event.call ++ [call]) w.remote ∧
        (resourceCloudscaleLoadBalancerUpdate c d w).err
          = some ("Error updating the Load Balancer (" ++ d.id ++ "): " ++ e.message) ∧
        (resourceCloudscaleLoadBalancerUpdate c d w).d = d) ∨
      (∃ evs,
        (∀ ev ∈ evs, ev.err = none) ∧
        evs.map Event.call = plannedUpdates d ∧
        resourceCloudscaleLoadBalancerUpdate c d w
          = resourceCloudscaleLoadBalancerRead c d
              ⟨replay c (plannedUpdates d) w.remote, w.log ++ evs⟩) := by
  rcases updateLoop_spec c d.id d ["name", "flavor_slug"] w with
    ⟨evs, h1, h2, h3⟩ | ⟨pre, e, call, h1, h2, h3⟩
  · right
    exact ⟨evs, h2, h3, update_unfold_ok c d w _ h1⟩
  · left
    refine ⟨pre, e, call, ?_, h2, h3, ?_, ?_, ?_⟩
    · rw [update_unfold_error c d w _ _ h1]
    · rw [update_unfold_error c d w _ _ h1]
    · rw [update_unfold_error c d w _ _ h1]
    · rw [update_unfold_error c d w _ _ h1]

/-- C1: when every remote Update call the update handler issues succeeds, the Update
calls it issued are exactly one per changed attribute among name and flavor_slug, in the
order name then flavor_slug; two calls when both changed and none when nothing changed. -/
theorem update_one_call_per_changed_attribute {σ : Type} (c : Client σ) (d : ResourceData)
    (w : World σ)
    (hok : ∀ ev ∈ newEvents w.log.length (resourceCloudscaleLoadBalancerUpdate c d w),
      ev.call.asUpdate ≠ none → ev.err = none) :
    updateCalls (newEvents w.log.length (resourceCloudscaleLoadBalancerUpdate c d w))
        = (["name", "flavor_slug"].filter d.HasChange).map
            (fun a => (d.id, updateOpts d a)) ∧
      (updateCalls (newEvents w.log.length
          (resourceCloudscaleLoadBalancerUpdate c d w))).length
        = (["name", "flavor_slug"].filter d.HasChange).length ∧
      (d.HasChange "name" = true → d.HasChange "flavor_slug" = true →
        updateCalls (newEvents w.log.length (resourceCloudscaleLoadBalancerUpdate c d w))
          = [(d.id, updateOpts d "name"), (d.id, updateOpts d "flavor_slug")]) ∧
      (d.HasChange "name" = false → d.HasChange "flavor_slug" = false →
        updateCalls (newEvents w.log.length (resourceCloudscaleLoadBalancerUpdate c d w))
          = []) := by
  have key : updateCalls (newEvents w.log.length (resourceCloudscaleLoadBalancerUpdate c d w))
      = (["name", "flavor_slug"].filter d.HasChange).map
          (fun a => (d.id, updateOpts d a)) := by
    rcases updateLoop_spec c d.id d ["name", "flavor_slug"] w with
      ⟨evs, h1, _, h3⟩ | ⟨pre, e, call, h1, _, h3⟩
    · rw [update_unfold_ok c d w _ h1]
      unfold newEvents
      rw [read_log]
      simp only [List.append_assoc, List.drop_left]
      rw [updateCalls_eq, List.map_append, h3, List.filterMap_append,
        filterMap_asUpdate_plannedFor]
      simp [Call.asUpdate]
    · exfalso
      have hmem : call ∈ plannedFor d d.id ["name", "flavor_slug"] :=
        h3.subset (by simp)
      rcases asUpdate_of_mem_plannedFor d d.id _ call hmem with ⟨opts, hcall⟩
      have hev : (⟨call, some e⟩ : Event)
          ∈ newEvents w.log.length (resourceCloudscaleLoadBalancerUpdate c d w) := by
        rw [update_unfold_error c d w _ _ h1]
        unfold newEvents
        simp only [List.append_assoc, List.drop_left]
        simp
      have := hok _ hev (by simp [hcall, Call.asUpdate])
      simp at this
  refine ⟨key, ?_, ?_, ?_⟩
  · rw [key, List.length_map]
  · intro hn hf
    rw [key]
    simp [List.filter_cons, hn, hf]
  · intro hn hf
    rw [key]
    simp [List.filter_cons, hn, hf]

theorem update_one_call_per_changed_attribute_witness :
    (∀ ev ∈ newEvents (freshWorld (some storedLb)).log.length
        (resourceCloudscaleLoadBalancerUpdate fakeClient planBothChange
          (freshWorld (some storedLb))),
      ev.call.asUpdate ≠ none → ev.err = none) ∧
    updateCalls (newEvents (freshWorld (some storedLb)).log.length
        (resourceCloudscaleLoadBalancerUpdate fakeClient planBothChange
          (freshWorld (some storedLb))))
      = [("lb-1", { Name := "web2" }), ("lb-1", {})] :=
  ⟨by decide,
    (update_one_call_per_changed_attribute fakeClient planBothChange
      (freshWorld (some storedLb)) (by decide)).1.trans (by decide)⟩

theorem update_aborts_on_first_failure_witness :
    ((∃ pre e call,
        (resourceCloudscaleLoadBalancerUpdate (secondUpdateFails storedLb) planBothChange
            (freshWorld 0)).w.log
          = (freshWorld 0).log ++ pre ++ [⟨call, some e⟩] ∧
        (∀ ev ∈ pre, ev.err = none) ∧
        (pre.map Event.call ++ [call]) <+: plannedUpdates planBothChange ∧
        (resourceCloudscaleLoadBalancerUpdate (secondUpdateFails storedLb) planBothChange
            (freshWorld 0)).w.remote
          = replay (secondUpdateFails storedLb) (pre.map Event.call ++ [call])
              (freshWorld 0).remote ∧
        (resourceCloudscaleLoadBalancerUpdate (secondUpdateFails storedLb) planBothChange
            (freshWorld 0)).err
          = some ("Error updating the Load Balancer (" ++ planBothChange.id ++ "): "
              ++ e.message) ∧
        (resourceCloudscaleLoadBalancerUpdate (secondUpdateFails storedLb) planBothChange
            (freshWorld 0)).d = planBothChange) ∨
      (∃ evs,
        (∀ ev ∈ evs, ev.err = none) ∧
        evs.map Event.call = plannedUpdates planBothChange ∧
        resourceCloudscaleLoadBalancerUpdate (secondUpdateFails storedLb) planBothChange
            (freshWorld 0)
          = resourceCloudscaleLoadBalancerRead (secondUpdateFails storedLb) planBothChange
              ⟨replay (secondUpdateFails storedLb) (plannedUpdates planBothChange)
                (freshWorld 0).remote, (freshWorld 0).log ++ evs⟩)) ∧
    (resourceCloudscaleLoadBalancerUpdate (secondUpdateFails storedLb) planBothChange
        (freshWorld 0)).err
      = some "Error updating the Load Balancer (lb-1): Internal server error." ∧
    (resourceCloudscaleLoadBalancerUpdate (secondUpdateFails storedLb) planBothChange
        (freshWorld 0)).w.log
      = [⟨Call.update "lb-1" { Name := "web2" }, none⟩,
         ⟨Call.update "lb-1" {}, some serverError⟩] ∧
    (resourceCloudscaleLoadBalancerUpdate (secondUpdateFails storedLb) planBothChange
        (freshWorld 0)).w.remote = 1 :=
  ⟨update_aborts_on_first_failure (secondUpdateFails storedLb) planBothChange (freshWorld 0),
    by decide, by decide, by decide⟩

/-- C2 (evaluation at the failing input): in an apply that changes only flavor_slug (to
`lb-large`) the update handler issues one Update call with an empty request, whose
Flavor is not the configured flavor_slug, and the remote flavor stays `lb-standard`. -/
theorem update_flavor_sends_empty_request :
    planFlavorChange.HasChange "flavor_slug" = true ∧
      asString (planFlavorChange.Get "flavor_slug") = "lb-large" ∧
      (resourceCloudscaleLoadBalancerUpdate fakeClient planFlavorChange
          (freshWorld (some storedLb))).err = none ∧
      (resourceCloudscaleLoadBalancerUpdate fakeClient planFlavorChange
          (freshWorld (some storedLb))).w.log
        = [⟨Call.update "lb-1"
              { Zone := "", Tags := none, Name := "", Flavor := "", VIPAddresses := none },
            none⟩,
           ⟨Call.get "lb-1", none⟩] ∧
      (updateOpts planFlavorChange "flavor_slug").Flavor
        ≠ asString (planFlavorChange.Get "flavor_slug") ∧
      (resourceCloudscaleLoadBalancerUpdate fakeClient planFlavorChange
          (freshWorld (some storedLb))).w.remote = some storedLb ∧
      storedLb.Flavor.Slug = "lb-standard" := by
  refine ⟨by decide, by decide, by decide, by decide, by decide, by decide, by decide⟩

/-- C3 (evaluation at the failing input): in an apply that clears the tag set of a load
balancer tagged `my-foo: foo, my-bar: bar`, the update handler sees the change but issues
no Update call at all, so the remote tag set stays what it was and differs from the
configured (empty) tag set. -/
theorem update_never_sends_tags :
    planTagsCleared.HasChange "tags" = true ∧
      CopyTags planTagsCleared = some [] ∧
      (resourceCloudscaleLoadBalancerUpdate fakeClient planTagsCleared
          (freshWorld (some storedLb))).err = none ∧
      (resourceCloudscaleLoadBalancerUpdate fakeClient planTagsCleared
          (freshWorld (some storedLb))).w.log = [⟨Call.get "lb-1", none⟩] ∧
      updateCalls (resourceCloudscaleLoadBalancerUpdate fakeClient planTagsCleared
          (freshWorld (some storedLb))).w.log = [] ∧
      ((resourceCloudscaleLoadBalancerUpdate fakeClient planTagsCleared
          (freshWorld (some storedLb))).w.remote.map fun lb => lb.Tags)
        = some [("my-foo", "foo"), ("my-bar", "bar")] := by
  refine ⟨by decide, by decide, by decide, by decide, by decide, by decide⟩

/-! ## Read -/

theorem lookup_gather_scalar (lb : LoadBalancer) :
    lookup "href" (gatherLoadBalancerData lb) = some (Value.str lb.HREF) ∧
      lookup "name" (gatherLoadBalancerData lb) = some (Value.str lb.Name) ∧
      lookup "flavor_slug" (gatherLoadBalancerData lb) = some (Value.str lb.Flavor.Slug) ∧
      lookup "status" (gatherLoadBalancerData lb) = some (Value.str lb.Status) := by
  unfold gatherLoadBalancerData
  by_cases h : lb.VIPAddresses.length > 0
  · simp only [h, if_true]
    refine ⟨?_, ?_, ?_, ?_⟩ <;> simp [lookup]
  · simp only [h, if_false]
    refine ⟨?_, ?_, ?_, ?_⟩ <;> simp [lookup]

theorem lookup_gather_vips (lb : LoadBalancer) :
    lookup "vip_addresses" (gatherLoadBalancerData lb) =
      if lb.VIPAddresses = [] then none
      else some (Value.list (lb.VIPAddresses.map vipMapOf)) := by
  unfold gatherLoadBalancerData
  by_cases h : lb.VIPAddresses = []
  · simp [h, lookup]
  · have hpos : lb.VIPAddresses.length > 0 := List.length_pos.mpr h
    simp [h, hpos, lookup]

/-- C4 (counterexample): a successful read of a record in zone `lpg1` with no tags and no
VIP address leaves zone_slug, tags and vip_addresses of the stored state as they were. -/
theorem read_keeps_ungathered_attributes :
    fakeClient.Get planNoChange.id (freshWorld (some driftedLb)).remote
        = (Except.ok driftedLb, some driftedLb) ∧
      (resourceCloudscaleLoadBalancerRead fakeClient planNoChange
          (freshWorld (some driftedLb))).err = none ∧
      (resourceCloudscaleLoadBalancerRead fakeClient planNoChange
          (freshWorld (some driftedLb))).d.Get "zone_slug" = some (Value.str "rma1") ∧
      driftedLb.ZoneSlug = "lpg1" ∧
      (resourceCloudscaleLoadBalancerRead fakeClient planNoChange
          (freshWorld (some driftedLb))).d.Get "tags"
        = some (Value.tags [("my-foo", "foo"), ("my-bar", "bar")]) ∧
      driftedLb.Tags = [] ∧
      (asList ((resourceCloudscaleLoadBalancerRead fakeClient planNoChange
          (freshWorld (some driftedLb))).d.Get "vip_addresses")).length = 1 ∧
      driftedLb.VIPAddresses = [] := by
  refine ⟨rfl, by decide, by decide, by decide, by decide, by decide, by decide,
    by decide⟩

/-- C4 (amended): after a successful remote Get returning the record `lb`, the read
handler returns no error and name, flavor_slug, href and status read as the values of
`lb`; vip_addresses reads as the sub-records of `lb` when `lb` has at least one VIP
address and keeps its prior value when `lb` has none. -/
theorem read_overwrites_gathered_attributes {σ : Type} (c : Client σ) (d : ResourceData)
    (w : World σ) (lb : LoadBalancer) (s1 : σ)
    (h : c.Get d.id w.remote = (Except.ok lb, s1)) :
    (resourceCloudscaleLoadBalancerRead c d w).err = none ∧
      (resourceCloudscaleLoadBalancerRead c d w).d.Get "name" = some (Value.str lb.Name) ∧
      (resourceCloudscaleLoadBalancerRead c d w).d.Get "flavor_slug"
        = some (Value.str lb.Flavor.Slug) ∧
      (resourceCloudscaleLoadBalancerRead c d w).d.Get "href" = some (Value.str lb.HREF) ∧
      (resourceCloudscaleLoadBalancerRead c d w).d.Get "status"
        = some (Value.str lb.Status) ∧
      (lb.VIPAddresses ≠ [] →
        (resourceCloudscaleLoadBalancerRead c d w).d.Get "vip_addresses"
          = some (Value.list (lb.VIPAddresses.map vipMapOf))) ∧
      (lb.VIPAddresses = [] →
        (resourceCloudscaleLoadBalancerRead c d w).d.Get "vip_addresses"
          = d.Get "vip_addresses") := by
  rw [read_unfold_ok c d w lb s1 h]
  obtain ⟨h1, h2, h3, h4⟩ := lookup_gather_scalar lb
  refine ⟨rfl, ?_, ?_, ?_, ?_, ?_, ?_⟩
  · show (fillLoadBalancerSchema d lb).Get "name" = _
    rw [fillLoadBalancerSchema_Get d lb "name" (by decide), h2]
  · show (fillLoadBalancerSchema d lb).Get "flavor_slug" = _
    rw [fillLoadBalancerSchema_Get d lb "flavor_slug" (by decide), h3]
  · show (fillLoadBalancerSchema d lb).Get "href" = _
    rw [fillLoadBalancerSchema_Get d lb "href" (by decide), h1]
  · show (fillLoadBalancerSchema d lb).Get "status" = _
    rw [fillLoadBalancerSchema_Get d lb "status" (by decide), h4]
  · intro hne
    show (fillLoadBalancerSchema d lb).Get "vip_addresses" = _
    rw [fillLoadBalancerSchema_Get d lb "vip_addresses" (by decide), lookup_gather_vips,
      if_neg hne]
  · intro he
    show (fillLoadBalancerSchema d lb).Get "vip_addresses" = _
    rw [fillLoadBalancerSchema_Get d lb "vip_addresses" (by decide), lookup_gather_vips,
      if_pos he]

theorem read_overwrites_gathered_attributes_witness :
    fakeClient.Get planNoChange.id (freshWorld (some createdLb)).remote
        = (Except.ok createdLb, some createdLb) ∧
      createdLb.VIPAddresses ≠ [] ∧
      (resourceCloudscaleLoadBalancerRead fakeClient planNoChange
          (freshWorld (some createdLb))).d.Get "name" = some (Value.str "web") ∧
      (resourceCloudscaleLoadBalancerRead fakeClient planNoChange
          (freshWorld (some createdLb))).d.Get "flavor_slug"
        = some (Value.str "lb-standard") ∧
      (resourceCloudscaleLoadBalancerRead fakeClient planNoChange
          (freshWorld (some createdLb))).d.Get "vip_addresses"
        = some (Value.list (createdLb.VIPAddresses.map vipMapOf)) :=
  ⟨rfl, by decide,
    (read_overwrites_gathered_attributes fakeClient planNoChange
      (freshWorld (some createdLb)) createdLb (some createdLb) rfl).2.1,
    (read_overwrites_gathered_attributes fakeClient planNoChange
      (freshWorld (some createdLb)) createdLb (some createdLb) rfl).2.2.1,
    (read_overwrites_gathered_attributes fakeClient planNoChange
      (freshWorld (some createdLb)) createdLb (some createdLb) rfl).2.2.2.2.2.1
      (by decide)⟩

end Cloudscale
